import Mathlib

/-!
A shallow embedding of the ephemeral temp-file store implemented by the PDF
plugin server (`src/index.js`, "Final Version", together with the
near-duplicate streaming variant `src/unnamed/part_006`).

The embedded fragment consists of:
* the backing directory of temp files plus the pending `setTimeout` cleanup
  timers (`StoreState`);
* the shared put path of `POST /generate-pdf` and `POST /edit-pdf`: write the
  produced bytes at `path.join(tempDir, fileId)` with `fs.writeFileSync`,
  schedule `scheduleFileCleanup` for 300000 ms later, and answer with a
  download URL built from the file id and the display filename (`putFile`);
* the `GET /download/:fileId/:filename` handler: the
  `/^[a-zA-Z0-9-]+\.pdf$/` format check, then `res.download` of
  `path.join(tempDir, fileId)` (`download`);
* the cleanup callback of `scheduleFileCleanup`, including its handling of
  `ENOENT` and of other `fs.unlink` errors (`runCleanup`);
* the id generation `uuidv4() + ".pdf"` of the `uuid` package (`uuidv4`,
  `generatedFileId`);
* the chunkwise write of the `part_006` variant, where `doc.pipe` streams
  into `fs.createWriteStream(filePath)` opened on the final path
  (`appendChunk`).

The PDF libraries themselves (pdfkit, pdf-lib, pdfreader) are external
collaborators; their outputs appear as the `pdfBytes` / `modifiedPdfBytes`
parameters of the handler models.
-/

namespace PdfStore

/-- File contents: a sequence of bytes. -/
abbrev Bytes := List Nat

/-- Strings, modelled as lists of characters. -/
abbrev Str := List Char

/-- `path.join(dir, file)` for a directory and a plain file name. -/
def pathJoin (dir file : Str) : Str := dir ++ '/' :: file

/-- The state of the store: the files present in the backing temp directory
(keyed by full path) and the pending cleanup timers (path, absolute firing
time in ms). -/
structure StoreState where
  files : List (Str × Bytes)
  timers : List (Str × Nat)
deriving DecidableEq

/-- Reading the file at a path: `some` contents when present, `none` when
absent (an `fs` open would fail with `ENOENT`). -/
def lookupFile : List (Str × Bytes) → Str → Option Bytes
  | [], _ => none
  | e :: r, p => if e.1 = p then some e.2 else lookupFile r p

/-- `fs.unlink`: remove the entry at a path from the directory. -/
def eraseFile (p : Str) : List (Str × Bytes) → List (Str × Bytes)
  | [] => []
  | e :: r => if e.1 = p then eraseFile p r else e :: eraseFile p r

/-- Membership in the character class `[a-zA-Z0-9-]` of the download route's
file-id check. -/
def isIdChar (c : Char) : Bool :=
  decide (97 ≤ c.toNat ∧ c.toNat ≤ 122) || decide (65 ≤ c.toNat ∧ c.toNat ≤ 90) ||
    decide (48 ≤ c.toNat ∧ c.toNat ≤ 57) || decide (c.toNat = 45)

/-- The four characters of the literal `.pdf` suffix. -/
def pdfExt : Str := ['.', 'p', 'd', 'f']

/-- The test `/^[a-zA-Z0-9-]+\.pdf$/.test(fileId)` of the download route: a
non-empty run of `[a-zA-Z0-9-]` characters followed by exactly `.pdf`. -/
def validFileId (s : Str) : Bool :=
  decide (5 ≤ s.length) && decide (s.drop (s.length - 4) = pdfExt) &&
    (s.take (s.length - 4)).all isIdChar

/-- The observable outcome of `GET /download/:fileId/:filename`:
`ok bytes displayName` is the 200 attachment response, `invalidFormat` the
400 "Invalid file ID format." response, `notFound` the 404 "File not found
or has expired." response. -/
inductive DownloadResult where
  | ok (bytes : Bytes) (displayName : Str)
  | invalidFormat
  | notFound
deriving DecidableEq

/-- The `GET /download/:fileId/:filename` handler: reject ids failing the
format check with 400 before any filesystem access; otherwise
`res.download(path.join(tempDir, fileId), filename)`, which serves the file's
bytes under the display name or reports 404 when the file is absent. -/
def download (tempDir : Str) (st : StoreState) (fileId filename : Str) : DownloadResult :=
  if validFileId fileId then
    match lookupFile st.files (pathJoin tempDir fileId) with
    | some b => .ok b filename
    | none => .notFound
  else .invalidFormat

/-- Lowercase hexadecimal digit, as produced by the `uuid` package's byte
formatting. -/
def lowHexChar (n : Nat) : Char :=
  if n < 10 then Char.ofNat (48 + n) else Char.ofNat (87 + n)

/-- Uppercase hexadecimal digit, as produced by `encodeURIComponent` percent
escapes. -/
def upHexChar (n : Nat) : Char :=
  if n < 10 then Char.ofNat (48 + n) else Char.ofNat (55 + n)

/-- UTF-8 encoding of a character, needed by `encodeURIComponent`. -/
def utf8Bytes (c : Char) : List Nat :=
  let n := c.toNat
  if n < 128 then [n]
  else if n < 2048 then [192 + n / 64, 128 + n % 64]
  else if n < 65536 then [224 + n / 4096, 128 + n / 64 % 64, 128 + n % 64]
  else [240 + n / 262144, 128 + n / 4096 % 64, 128 + n / 64 % 64, 128 + n % 64]

/-- The characters `encodeURIComponent` leaves unescaped:
`A-Z a-z 0-9 - _ . ! ~ * ' ( )`. -/
def isUnreserved (c : Char) : Bool :=
  decide (65 ≤ c.toNat ∧ c.toNat ≤ 90) || decide (97 ≤ c.toNat ∧ c.toNat ≤ 122) ||
    decide (48 ≤ c.toNat ∧ c.toNat ≤ 57) ||
    decide (c.toNat = 45) || decide (c.toNat = 95) || decide (c.toNat = 46) ||
    decide (c.toNat = 33) || decide (c.toNat = 126) || decide (c.toNat = 42) ||
    decide (c.toNat = 39) || decide (c.toNat = 40) || decide (c.toNat = 41)

/-- One character under `encodeURIComponent`: kept when unreserved, otherwise
percent-escaped bytewise. -/
def encodeChar (c : Char) : Str :=
  if isUnreserved c then [c]
  else ((utf8Bytes c).map (fun b => ['%', upHexChar (b / 16 % 16), upHexChar (b % 16)])).flatten

/-- JavaScript's `encodeURIComponent`. -/
def encodeURIComponent (s : Str) : Str := (s.map encodeChar).flatten

/-- `filename.toLowerCase().endsWith('.pdf')`. -/
def lowerEndsWithPdf (s : Str) : Bool :=
  let t := s.map Char.toLower
  decide (4 ≤ t.length) && decide (t.drop (t.length - 4) = pdfExt)

/-- The `finalFilename` fix of both put handlers: append `.pdf` when the
lowercased display name does not already end in it. -/
def finalFilename (s : Str) : Str := if lowerEndsWithPdf s then s else s ++ pdfExt

/-- The fixed URL root both put handlers prepend to `fileId/filename`. -/
def urlBase : Str := ("https://googlesheet-plugin.onrender.com/download/").data

/-- The download URL both put handlers answer with; built from the file id
and the encoded display name only. -/
def downloadUrlOf (fileId displayName : Str) : Str :=
  urlBase ++ fileId ++ '/' :: encodeURIComponent (finalFilename displayName)

/-- The retention window of `scheduleFileCleanup`: 300000 ms (5 minutes). -/
def retentionWindow : Nat := 300000

/-- `scheduleFileCleanup(filePath, fileId)` called at time `now`: register
one `setTimeout` firing `retentionWindow` later. -/
def scheduleFileCleanup (st : StoreState) (filePath : Str) (now : Nat) : StoreState :=
  { st with timers := st.timers ++ [(filePath, now + retentionWindow)] }

/-- `fs.writeFileSync(filePath, bytes)`: create or overwrite the file at the
given path. -/
def writeFileSync (st : StoreState) (filePath : Str) (payload : Bytes) : StoreState :=
  { st with files := (filePath, payload) :: eraseFile filePath st.files }

/-- The common tail of `POST /generate-pdf` and `POST /edit-pdf` once the PDF
bytes exist: write them at `path.join(tempDir, fileId)`, schedule the
cleanup, and answer with the download URL. Returns the new state and the
URL sent to the caller. -/
def putFile (tempDir : Str) (st : StoreState) (fileId : Str) (payload : Bytes)
    (filename : Str) (now : Nat) : StoreState × Str :=
  let filePath := pathJoin tempDir fileId
  let st1 := writeFileSync st filePath payload
  let st2 := scheduleFileCleanup st1 filePath now
  (st2, downloadUrlOf fileId filename)

/-- One pending timer observed at time `t`: when due, its callback unlinks
its path. -/
def fireTimer (t : Nat) (fs : List (Str × Bytes)) (tm : Str × Nat) : List (Str × Bytes) :=
  if tm.2 ≤ t then eraseFile tm.1 fs else fs

/-- Run every pending timer that is due by time `t`, in scheduling order. -/
def fireDue (t : Nat) (fs : List (Str × Bytes)) : List (Str × Nat) → List (Str × Bytes)
  | [] => fs
  | tm :: r => fireDue t (fireTimer t fs tm) r

/-- Advance the store to time `t`: every due cleanup callback has run and
the due timers are gone. -/
def runTimersUpTo (st : StoreState) (t : Nat) : StoreState :=
  { files := fireDue t st.files st.timers,
    timers := st.timers.filter (fun tm => decide (t < tm.2)) }

/-- What one cleanup callback invocation does, observably: `removed` for a
successful unlink (logged as "Cleaned up temp file"), `alreadyAbsent` for an
`ENOENT` error (silently swallowed), `faultLogged` for any other unlink
error (`console.error`, then normal return), `crashed` for an error escaping
the callback — the embedded callback never produces it. -/
inductive CleanupOutcome where
  | removed
  | alreadyAbsent
  | faultLogged
  | crashed
deriving DecidableEq

/-- Whether an outcome writes to the error log (`console.error`). -/
def logsError : CleanupOutcome → Bool
  | .faultLogged => true
  | _ => false

/-- The cleanup callback of `scheduleFileCleanup`, with an injectable I/O
fault: when `ioFault` holds, `fs.unlink` reports a non-`ENOENT` error, which
the callback logs and swallows; otherwise the unlink removes the file when
present and reports the swallowed `ENOENT` when not. -/
def runCleanup (st : StoreState) (filePath : Str) (ioFault : Bool) :
    CleanupOutcome × StoreState :=
  if ioFault then (.faultLogged, st)
  else
    match lookupFile st.files filePath with
    | some _ => (.removed, { st with files := eraseFile filePath st.files })
    | none => (.alreadyAbsent, st)

/-- Number of `fs.unlink` attempts a single scheduled cleanup performs: the
callback in `scheduleFileCleanup` calls `fs.unlink` exactly once and
contains no retry loop. -/
def cleanupUnlinkAttempts : Nat := 1

/-- Two lowercase hex digits of one byte, as the `uuid` package formats
bytes. -/
def byteToHex (b : Nat) : Str := [lowHexChar (b / 16 % 16), lowHexChar (b % 16)]

/-- Hex rendering of a run of bytes. -/
def hexConcat : List Nat → Str
  | [] => []
  | b :: r => byteToHex b ++ hexConcat r

/-- The version/variant fixup of `uuid.v4`:
`rnds[6] = (rnds[6] & 0x0f) | 0x40` and `rnds[8] = (rnds[8] & 0x3f) | 0x80`. -/
def setVersionVariant (b : List Nat) : List Nat :=
  (b.set 6 (b.getD 6 0 % 16 + 64)).set 8 (b.getD 8 0 % 64 + 128)

/-- `uuid.v4()` applied to the 16 random bytes `rnds`: fix version and
variant, then render as lowercase hex in the 8-4-4-4-12 dashed layout. -/
def uuidv4 (rnds : List Nat) : Str :=
  let b := setVersionVariant (rnds.map (· % 256))
  hexConcat (b.take 4) ++ '-' :: hexConcat ((b.drop 4).take 2) ++ '-' ::
    hexConcat ((b.drop 6).take 2) ++ '-' :: hexConcat ((b.drop 8).take 2) ++ '-' ::
    hexConcat (b.drop 10)

/-- The file id both put handlers issue: `` `${uuidv4()}.pdf` ``. -/
def generatedFileId (rnds : List Nat) : Str := uuidv4 rnds ++ pdfExt

/-- Observable outcome of `POST /generate-pdf`: the 400 missing-field
rejection or the 200 response carrying the download URL. -/
inductive GenResult where
  | missingContent
  | ok (downloadUrl : Str)
deriving DecidableEq

/-- The `POST /generate-pdf` handler: reject an absent or empty `content`
with 400 before any rendering or file write; otherwise store the rendered
`pdfBytes` under the fresh `fileId` and answer with the URL. -/
def generatePdf (tempDir : Str) (st : StoreState) (content filename : Str)
    (pdfBytes : Bytes) (fileId : Str) (now : Nat) : GenResult × StoreState :=
  if content = [] then (.missingContent, st)
  else
    let r := putFile tempDir st fileId pdfBytes filename now
    (.ok r.2, r.1)

/-- Observable outcome of `POST /edit-pdf`. -/
inductive EditResult where
  | missingFields
  | invalidPage (numPages : Nat)
  | ok (downloadUrl : Str)
deriving DecidableEq

/-- The `POST /edit-pdf` handler: reject an absent or empty `base64Data` or
`textToAdd`, or an undefined `pageNumber`, with 400 before any file write;
reject an out-of-range page; otherwise store the library's
`modifiedPdfBytes` under the fresh `fileId` and answer with the URL. -/
def editPdf (tempDir : Str) (st : StoreState) (base64Data textToAdd : Str)
    (pageNumber : Option Int) (filename : Str) (numPages : Nat)
    (modifiedPdfBytes : Bytes) (fileId : Str) (now : Nat) : EditResult × StoreState :=
  match pageNumber with
  | none => (.missingFields, st)
  | some p =>
    if base64Data = [] ∨ textToAdd = [] then (.missingFields, st)
    else if p - 1 < 0 ∨ (numPages : Int) ≤ p - 1 then (.invalidPage numPages, st)
    else
      let r := putFile tempDir st fileId modifiedPdfBytes filename now
      (.ok r.2, r.1)

/-- One chunk flush of the `part_006` streaming variant of
`POST /generate-pdf`: `doc.pipe(fs.createWriteStream(filePath))` opens the
final path directly, so each flushed chunk extends the file at
`path.join(tempDir, fileId)` in place. -/
def appendChunk (tempDir : Str) (st : StoreState) (fileId : Str) (chunk : Bytes) :
    StoreState :=
  let p := pathJoin tempDir fileId
  match lookupFile st.files p with
  | some old => { st with files := (p, old ++ chunk) :: eraseFile p st.files }
  | none => { st with files := (p, chunk) :: st.files }

/-- The byte payload of a download response, when any. -/
def resultBytes : DownloadResult → Option Bytes
  | .ok b _ => some b
  | _ => none

theorem lookupFile_eraseFile_self (p : Str) (fs : List (Str × Bytes)) :
    lookupFile (eraseFile p fs) p = none := by
  induction fs with
  | nil => rfl
  | cons e r ih =>
    by_cases h : e.1 = p
    · simp [eraseFile, h, ih]
    · simp [eraseFile, h, lookupFile, ih]

theorem lookupFile_eraseFile_ne (p q : Str) (fs : List (Str × Bytes)) (h : q ≠ p) :
    lookupFile (eraseFile q fs) p = lookupFile fs p := by
  induction fs with
  | nil => rfl
  | cons e r ih =>
    by_cases he : e.1 = q
    · have h1 : eraseFile q (e :: r) = eraseFile q r := by simp [eraseFile, he]
      have hep : ¬e.1 = p := by rw [he]; exact h
      rw [h1, show lookupFile (e :: r) p = lookupFile r p by simp [lookupFile, hep]]
      exact ih
    · have h1 : eraseFile q (e :: r) = e :: eraseFile q r := by simp [eraseFile, he]
      rw [h1]
      by_cases hp : e.1 = p <;> simp [lookupFile, hp, ih]

theorem lookupFile_none_eraseFile (p q : Str) (fs : List (Str × Bytes))
    (h : lookupFile fs q = none) : lookupFile (eraseFile p fs) q = none := by
  by_cases hpq : p = q
  · subst hpq; exact lookupFile_eraseFile_self p fs
  · rw [lookupFile_eraseFile_ne q p fs hpq]
    exact h

theorem fireDue_preserve (t : Nat) (p : Str) (fs : List (Str × Bytes))
    (tms : List (Str × Nat)) (h : ∀ tm ∈ tms, tm.1 ≠ p ∨ t < tm.2) :
    lookupFile (fireDue t fs tms) p = lookupFile fs p := by
  induction tms generalizing fs with
  | nil => rfl
  | cons tm r ih =>
    have htm := h tm (List.mem_cons_self tm r)
    have hrest : ∀ x ∈ r, x.1 ≠ p ∨ t < x.2 := fun x hx => h x (List.mem_cons_of_mem tm hx)
    show lookupFile (fireDue t (fireTimer t fs tm) r) p = lookupFile fs p
    rw [ih (fireTimer t fs tm) hrest]
    unfold fireTimer
    rcases htm with hne | hlate
    · by_cases hd : tm.2 ≤ t
      · simp [hd, lookupFile_eraseFile_ne p tm.1 fs hne]
      · simp [hd]
    · simp [Nat.not_le_of_lt hlate]

theorem fireDue_absent (t : Nat) (p : Str) (fs : List (Str × Bytes))
    (tms : List (Str × Nat)) (h : lookupFile fs p = none) :
    lookupFile (fireDue t fs tms) p = none := by
  induction tms generalizing fs with
  | nil => exact h
  | cons tm r ih =>
    show lookupFile (fireDue t (fireTimer t fs tm) r) p = none
    apply ih
    unfold fireTimer
    by_cases hd : tm.2 ≤ t
    · simp [hd, lookupFile_none_eraseFile tm.1 p fs h]
    · simp [hd, h]

theorem fireDue_append (t : Nat) (fs : List (Str × Bytes)) (l1 l2 : List (Str × Nat)) :
    fireDue t fs (l1 ++ l2) = fireDue t (fireDue t fs l1) l2 := by
  induction l1 generalizing fs with
  | nil => rfl
  | cons tm r ih => simp [fireDue, ih]

/-- A store with no files and no pending timers, for concrete instantiations. -/
def emptyStore : StoreState := ⟨[], []⟩

/-- A store holding one unrelated file, for concrete instantiations. -/
def otherStore : StoreState := ⟨[(['t', '/', 'q'], [9])], []⟩

/-- C4 counterexample: a malformed id (`".."`) is answered with the 400
"Invalid file ID format." response, while a well-formed but unknown id
(`"z.pdf"`) is answered with the 404 "File not found or has expired."
response; the two responses differ, so a malformed id is not rejected with
the same NotFound result as an unknown id. -/
theorem malformed_vs_unknown_responses_cex :
    download ['t'] emptyStore ['.', '.'] ['n'] = DownloadResult.invalidFormat ∧
    download ['t'] emptyStore ['z', '.', 'p', 'd', 'f'] ['n'] = DownloadResult.notFound ∧
    DownloadResult.invalidFormat ≠ DownloadResult.notFound := by
  decide

/-- C4 (amended): every id failing the expected format is rejected
immediately with the 400 invalid-format response, this response is
independent of the backing store's contents (the store is not touched), and
it is distinct from the NotFound response returned for well-formed but
unknown ids. -/
theorem malformed_id_rejected_distinctly (tempDir : Str) (st st2 : StoreState)
    (id n : Str) (h : validFileId id = false) :
    download tempDir st id n = DownloadResult.invalidFormat ∧
    download tempDir st id n = download tempDir st2 id n ∧
    DownloadResult.invalidFormat ≠ DownloadResult.notFound := by
  unfold download
  simp [h]

/-- C4 witness: the amended statement at the malformed id `".."`, the empty
store and a store holding an unrelated file. -/
theorem malformed_id_rejected_witness :
    download ['t'] emptyStore ['.', '.'] ['n'] = DownloadResult.invalidFormat ∧
    download ['t'] emptyStore ['.', '.'] ['n'] = download ['t'] otherStore ['.', '.'] ['n'] ∧
    DownloadResult.invalidFormat ≠ DownloadResult.notFound :=
  malformed_id_rejected_distinctly ['t'] emptyStore otherStore ['.', '.'] ['n'] (by decide)

/-- C5: for a well-formed id whose backing file is absent, the download
response is the 404 NotFound, regardless of whether the id once existed and
expired (`stExpired`) or was never issued (`stNever`); in particular the two
responses are identical, leaking nothing about the id's history. -/
theorem expired_and_unknown_indistinguishable (tempDir : Str)
    (stExpired stNever : StoreState) (id n : Str) (hvalid : validFileId id = true)
    (h1 : lookupFile stExpired.files (pathJoin tempDir id) = none)
    (h2 : lookupFile stNever.files (pathJoin tempDir id) = none) :
    download tempDir stExpired id n = DownloadResult.notFound ∧
    download tempDir stNever id n = DownloadResult.notFound ∧
    download tempDir stExpired id n = download tempDir stNever id n := by
  unfold download
  simp [hvalid, h1, h2]

/-- C5 witness: the indistinguishability at the well-formed id `"a.pdf"`,
with one store holding an unrelated file and the other empty. -/
theorem expired_and_unknown_witness :
    download ['t'] otherStore ['a', '.', 'p', 'd', 'f'] ['n'] = DownloadResult.notFound ∧
    download ['t'] emptyStore ['a', '.', 'p', 'd', 'f'] ['n'] = DownloadResult.notFound ∧
    download ['t'] otherStore ['a', '.', 'p', 'd', 'f'] ['n'] =
      download ['t'] emptyStore ['a', '.', 'p', 'd', 'f'] ['n'] :=
  expired_and_unknown_indistinguishable ['t'] otherStore emptyStore
    ['a', '.', 'p', 'd', 'f'] ['n'] (by decide) (by decide) (by decide)

/-- C6: a put whose payload is empty is rejected synchronously — the
`generate-pdf` handler rejects an empty `content` and the `edit-pdf` handler
rejects an empty `base64Data` with the 400 missing-field response — and in
both cases the store state is returned unchanged: no backing resource is
created. -/
theorem empty_payload_rejected_no_write (tempDir : Str) (st : StoreState)
    (filename : Str) (pdfBytes : Bytes) (fileId : Str) (now : Nat) (textToAdd : Str)
    (pageNumber : Option Int) (numPages : Nat) (modBytes : Bytes) :
    generatePdf tempDir st [] filename pdfBytes fileId now = (GenResult.missingContent, st) ∧
    editPdf tempDir st [] textToAdd pageNumber filename numPages modBytes fileId now =
      (EditResult.missingFields, st) := by
  refine ⟨rfl, ?_⟩
  cases pageNumber with
  | none => rfl
  | some p => simp [editPdf]

/-- C7: a second deletion attempt on the same path is a no-op treated as
success: whatever the first cleanup did, the second one hits the
already-absent file, reports the swallowed `ENOENT` outcome, leaves the
state unchanged, and writes nothing to the error log. -/
theorem second_cleanup_is_noop (st : StoreState) (p : Str) :
    runCleanup (runCleanup st p false).2 p false =
      (CleanupOutcome.alreadyAbsent, (runCleanup st p false).2) ∧
    logsError CleanupOutcome.alreadyAbsent = false := by
  refine ⟨?_, rfl⟩
  unfold runCleanup
  cases h : lookupFile st.files p with
  | none => simp [h]
  | some b => simp [h, lookupFile_eraseFile_self]

/-- C8: a background deletion failing with a fault other than already-absent
is logged (`console.error`) and abandoned with the state intact, the
cleanup's single `fs.unlink` call stays within the budget of one initial
attempt plus at most one retry, and no cleanup outcome is a crash of the
process. -/
theorem cleanup_fault_logged_never_fatal (st : StoreState) (p : Str) (fault : Bool) :
    runCleanup st p true = (CleanupOutcome.faultLogged, st) ∧
    logsError CleanupOutcome.faultLogged = true ∧
    (runCleanup st p fault).1 ≠ CleanupOutcome.crashed ∧
    cleanupUnlinkAttempts ≤ 1 + 1 := by
  refine ⟨rfl, rfl, ?_, by decide⟩
  unfold runCleanup
  cases fault with
  | true => simp
  | false => cases h : lookupFile st.files p <;> simp [h]

/-- C9: the bytes served by a download depend only on the file id — two
requests with the same id and different display-name path components yield
the same byte payload — and the download URL a put answers with is a
function of the file id and the display name alone: it is identical across
different backing directories, store states, payloads and times, so it never
embeds the raw filesystem path of the backing store. -/
theorem display_name_noninterference (tempDir : Str) (st : StoreState) (id n1 n2 : Str)
    (d1 d2 : Str) (st1 st2 : StoreState) (fid nm : Str) (P1 P2 : Bytes) (t1 t2 : Nat) :
    resultBytes (download tempDir st id n1) = resultBytes (download tempDir st id n2) ∧
    (putFile d1 st1 fid P1 nm t1).2 = (putFile d2 st2 fid P2 nm t2).2 := by
  refine ⟨?_, rfl⟩
  unfold download
  cases hv : validFileId id with
  | false => simp [hv]
  | true =>
    simp only [hv, if_true]
    cases lookupFile st.files (pathJoin tempDir id) <;> rfl

/-- C1: storing a non-empty payload `P` under a fresh well-formed file id
(as `/generate-pdf` and `/edit-pdf` do) and downloading it with the issued
id at any time strictly before the scheduled expiry — with every cleanup
due by then having run — returns exactly the bytes `P`, whatever display
name the retrieval uses. Freshness says no pending timer already targets the
new file's path. -/
theorem put_get_roundtrip (tempDir : Str) (st : StoreState) (fileId : Str) (P : Bytes)
    (N N2 : Str) (t0 t : Nat) (hP : P ≠ []) (hvalid : validFileId fileId = true)
    (hfresh : ∀ tm ∈ st.timers, tm.1 ≠ pathJoin tempDir fileId)
    (ht : t < t0 + retentionWindow) :
    download tempDir (runTimersUpTo (putFile tempDir st fileId P N t0).1 t) fileId N2 =
      DownloadResult.ok P N2 := by
  set p := pathJoin tempDir fileId with hp
  have hall : ∀ tm ∈ st.timers ++ [(p, t0 + retentionWindow)], tm.1 ≠ p ∨ t < tm.2 := by
    intro tm hm
    rcases List.mem_append.1 hm with hm | hm
    · exact Or.inl (hfresh tm hm)
    · rcases List.mem_singleton.1 hm with rfl
      exact Or.inr (by simpa using ht)
  have hlook : lookupFile (fireDue t ((p, P) :: eraseFile p st.files)
      (st.timers ++ [(p, t0 + retentionWindow)])) p = some P := by
    rw [fireDue_preserve t p _ _ hall]
    simp [lookupFile]
  have hst : runTimersUpTo (putFile tempDir st fileId P N t0).1 t =
      ⟨fireDue t ((p, P) :: eraseFile p st.files) (st.timers ++ [(p, t0 + retentionWindow)]),
        (st.timers ++ [(p, t0 + retentionWindow)]).filter (fun tm => decide (t < tm.2))⟩ := rfl
  rw [hst]
  unfold download
  simp [hvalid, hp, hlook]

/-- C1 witness: the round trip at a concrete payload, id and times. -/
theorem put_get_roundtrip_witness :
    download ['t'] (runTimersUpTo (putFile ['t'] emptyStore ['a', '.', 'p', 'd', 'f'] [7]
        ['n'] 0).1 299999) ['a', '.', 'p', 'd', 'f'] ['m'] = DownloadResult.ok [7] ['m'] :=
  put_get_roundtrip ['t'] emptyStore ['a', '.', 'p', 'd', 'f'] [7] ['n'] ['m'] 0 299999
    (by decide) (by decide) (by simp [emptyStore]) (by decide)

/-- C2: a put schedules exactly one expiry action, firing `retentionWindow`
(300000 ms) after creation — the timer list grows by exactly that one entry
— and at any time from the scheduled expiry on, once the due cleanups have
run, downloading the issued id reports NotFound and the backing file is
absent from the directory. -/
theorem put_schedules_single_expiry_then_removes (tempDir : Str) (st : StoreState)
    (fileId : Str) (P : Bytes) (N N2 : Str) (t0 t : Nat)
    (hvalid : validFileId fileId = true) (ht : t0 + retentionWindow ≤ t) :
    (putFile tempDir st fileId P N t0).1.timers =
        st.timers ++ [(pathJoin tempDir fileId, t0 + retentionWindow)] ∧
    download tempDir (runTimersUpTo (putFile tempDir st fileId P N t0).1 t) fileId N2 =
        DownloadResult.notFound ∧
    lookupFile (runTimersUpTo (putFile tempDir st fileId P N t0).1 t).files
        (pathJoin tempDir fileId) = none := by
  set p := pathJoin tempDir fileId with hp
  have habsent : lookupFile (fireDue t ((p, P) :: eraseFile p st.files)
      (st.timers ++ [(p, t0 + retentionWindow)])) p = none := by
    rw [fireDue_append]
    simp [fireDue, fireTimer, ht, lookupFile_eraseFile_self]
  have hst : runTimersUpTo (putFile tempDir st fileId P N t0).1 t =
      ⟨fireDue t ((p, P) :: eraseFile p st.files) (st.timers ++ [(p, t0 + retentionWindow)]),
        (st.timers ++ [(p, t0 + retentionWindow)]).filter (fun tm => decide (t < tm.2))⟩ := rfl
  refine ⟨rfl, ?_, ?_⟩
  · rw [hst]
    unfold download
    simp [hvalid, hp, habsent]
  · rw [hst]
    exact habsent

/-- C2 witness: the scheduling and removal at a concrete id and times. -/
theorem put_expiry_witness :
    (putFile ['t'] emptyStore ['a', '.', 'p', 'd', 'f'] [7] ['n'] 0).1.timers =
        emptyStore.timers ++ [(pathJoin ['t'] ['a', '.', 'p', 'd', 'f'], 0 + retentionWindow)] ∧
    download ['t'] (runTimersUpTo (putFile ['t'] emptyStore ['a', '.', 'p', 'd', 'f'] [7]
        ['n'] 0).1 300000) ['a', '.', 'p', 'd', 'f'] ['m'] = DownloadResult.notFound ∧
    lookupFile (runTimersUpTo (putFile ['t'] emptyStore ['a', '.', 'p', 'd', 'f'] [7]
        ['n'] 0).1 300000).files (pathJoin ['t'] ['a', '.', 'p', 'd', 'f']) = none :=
  put_schedules_single_expiry_then_removes ['t'] emptyStore ['a', '.', 'p', 'd', 'f'] [7]
    ['n'] ['m'] 0 300000 (by decide) (by decide)

/-- C3 counterexample: in the streaming variant the payload `[1, 2]` is
flushed to the final path in two chunks; a download that runs between the
two flushes observes `[1]` — a proper, partially written portion of the
payload, neither the full payload nor a NotFound — so a concurrent get can
observe a partially written file. -/
theorem streaming_put_mid_write_observation_cex :
    download ['t'] (appendChunk ['t'] emptyStore ['a', '.', 'p', 'd', 'f'] [1])
        ['a', '.', 'p', 'd', 'f'] ['n'] = DownloadResult.ok [1] ['n'] ∧
    download ['t'] (appendChunk ['t'] (appendChunk ['t'] emptyStore
        ['a', '.', 'p', 'd', 'f'] [1]) ['a', '.', 'p', 'd', 'f'] [2])
        ['a', '.', 'p', 'd', 'f'] ['n'] = DownloadResult.ok [1, 2] ['n'] ∧
    DownloadResult.ok ([1] : Bytes) ['n'] ≠ DownloadResult.ok [1, 2] ['n'] ∧
    DownloadResult.ok ([1] : Bytes) ['n'] ≠ DownloadResult.notFound := by
  decide

/-- C3 (amended): the put handlers write the payload directly at the final
backing path — `fs.writeFileSync` on the final path, or, in the streaming
variant, chunks piped into a write stream opened on the final path — with no
staging location and no rename; consequently a download that runs after a
chunk flush and before the stream finishes already sees the chunk at the
final path. -/
theorem put_streams_direct_to_final_path (tempDir : Str) (st : StoreState) (fileId : Str)
    (c : Bytes) (n : Str) (hvalid : validFileId fileId = true)
    (habsent : lookupFile st.files (pathJoin tempDir fileId) = none) :
    download tempDir (appendChunk tempDir st fileId c) fileId n = DownloadResult.ok c n := by
  unfold download appendChunk
  simp [hvalid, habsent, lookupFile]

/-- C3 witness: the direct write observed at a concrete chunk and id. -/
theorem put_streams_direct_witness :
    download ['t'] (appendChunk ['t'] emptyStore ['a', '.', 'p', 'd', 'f'] [1, 2])
        ['a', '.', 'p', 'd', 'f'] ['n'] = DownloadResult.ok [1, 2] ['n'] :=
  put_streams_direct_to_final_path ['t'] emptyStore ['a', '.', 'p', 'd', 'f'] [1, 2] ['n']
    (by decide) (by decide)

theorem isIdChar_lowHexChar (n : Nat) (h : n < 16) : isIdChar (lowHexChar n) = true := by
  interval_cases n <;> decide

theorem hexConcat_all_isIdChar (bs : List Nat) : (hexConcat bs).all isIdChar = true := by
  induction bs with
  | nil => rfl
  | cons b r ih =>
    have h1 := isIdChar_lowHexChar (b / 16 % 16) (Nat.mod_lt _ (by omega))
    have h2 := isIdChar_lowHexChar (b % 16) (Nat.mod_lt _ (by omega))
    simp [hexConcat, byteToHex, List.all_append, h1, h2, ih]

theorem uuidv4_all_isIdChar (rnds : List Nat) : (uuidv4 rnds).all isIdChar = true := by
  have hdash : isIdChar '-' = true := by decide
  unfold uuidv4
  simp [List.all_append, List.all_cons, hexConcat_all_isIdChar, hdash]

theorem uuidv4_length_pos (rnds : List Nat) : 1 ≤ (uuidv4 rnds).length := by
  unfold uuidv4
  simp [List.length_append, List.length_cons]
  omega

theorem take_length_append (l1 l2 : List Char) : (l1 ++ l2).take l1.length = l1 := by
  induction l1 with
  | nil => rfl
  | cons a r ih => simp [ih]

theorem drop_length_append (l1 l2 : List Char) : (l1 ++ l2).drop l1.length = l2 := by
  induction l1 with
  | nil => rfl
  | cons a r ih => simp [ih]

theorem validFileId_append_pdfExt (s : Str) (h1 : 1 ≤ s.length) (h2 : s.all isIdChar = true) :
    validFileId (s ++ pdfExt) = true := by
  have hlen : (s ++ pdfExt).length = s.length + 4 := by simp [pdfExt]
  have hidx : (s ++ pdfExt).length - 4 = s.length := by omega
  unfold validFileId
  rw [hidx, drop_length_append, take_length_append, hlen, h2]
  simp
  omega

/-- C10: every file id issued by the put handlers — a version-4 UUID over 16
random bytes followed by `.pdf` — passes the download route's
`/^[a-zA-Z0-9-]+\.pdf$/` format check, so the format check never rejects an
issued id. -/
theorem issued_id_passes_format_check (rnds : List Nat) (h : rnds.length = 16) :
    validFileId (generatedFileId rnds) = true := by
  unfold generatedFileId
  exact validFileId_append_pdfExt (uuidv4 rnds) (uuidv4_length_pos rnds)
    (uuidv4_all_isIdChar rnds)

/-- C10 witness: the id generated from sixteen zero bytes passes the format
check. -/
theorem issued_id_witness :
    (List.replicate 16 0).length = 16 ∧
    validFileId (generatedFileId (List.replicate 16 0)) = true :=
  ⟨by decide, issued_id_passes_format_check (List.replicate 16 0) (by decide)⟩

end PdfStore
